import Mathlib

/-!
Shallow embedding of the ai-buzz-tools service core (pricing calculator,
error decoder, status aggregator, usage counters) and proofs about it.

Python `float` arithmetic on monetary values is modelled with `ℚ`;
Python's `round(x, n)` (round half to even) is modelled by `pyRound`;
Python string slicing `s[:n]` is modelled by `pyTake`, and `len(s)` by
`String.length`.  `hashlib.sha256(...).hexdigest()` is external to the
repository, so the analytics functions take the hex-digest function as an
explicit parameter `hash`; the in-repo truncation `[:12]` is modelled
literally.
-/

/-- Python `round` to an integer: round half to even (banker's rounding). -/
def roundHalfEven (q : ℚ) : ℤ :=
  if q - ⌊q⌋ < 1/2 then ⌊q⌋
  else if 1/2 < q - ⌊q⌋ then ⌊q⌋ + 1
  else if ⌊q⌋ % 2 = 0 then ⌊q⌋ else ⌊q⌋ + 1

/-- Python `round(q, n)`. -/
def pyRound (n : ℕ) (q : ℚ) : ℚ :=
  (roundHalfEven (q * (10 ^ n : ℚ)) : ℚ) / (10 ^ n : ℚ)

/-- Python string slice `s[:n]`. -/
def pyTake (s : String) (n : ℕ) : String :=
  ⟨s.data.take n⟩

/-- Does `hay` start with `needle`? (helper for the substring test). -/
def headMatches : List Char → List Char → Bool
  | [], _ => true
  | _ :: _, [] => false
  | a :: as, b :: bs => a == b && headMatches as bs

/-- Python substring test `needle in hay` on the characters of the strings. -/
def charsContain (needle : List Char) : List Char → Bool
  | [] => headMatches needle []
  | b :: bs => headMatches needle (b :: bs) || charsContain needle bs

/-- Python substring test `needle in hay`. -/
def pyInStr (needle hay : String) : Bool :=
  charsContain needle.data hay.data

/-- Python `s.lower()`. -/
def pyLower (s : String) : String :=
  ⟨s.data.map Char.toLower⟩

-- ============================================================================
-- Pricing data model (src/api/pricing.py)
-- ============================================================================

/-- One model's catalog entry (`PricingModelInfo`). -/
structure PricingModelInfo where
  name : String
  input_per_1m : ℚ
  output_per_1m : ℚ
  context_window : ℤ
  notes : String
deriving DecidableEq

/-- One provider's catalog entry (`ProviderInfo`); models keyed by model id. -/
structure ProviderInfo where
  name : String
  website : String
  models : List (String × PricingModelInfo)
deriving DecidableEq

/-- The pricing catalog (`pricing_data.json` contents). -/
structure PricingCatalog where
  providers : List (String × ProviderInfo)
  last_updated : String
  update_frequency : String
deriving DecidableEq

/-- Result of `calculate_model_cost`. -/
structure ModelCost where
  input_cost : ℚ
  output_cost : ℚ
  total : ℚ
deriving DecidableEq

/-- `calculate_model_cost` (src/api/pricing.py lines 161-175): the two raw
costs are computed unrounded; the returned `input_cost`/`output_cost` are
individually rounded, while `total` rounds the sum of the two raw costs. -/
def calculate_model_cost (input_tokens output_tokens : ℕ)
    (input_per_1m output_per_1m : ℚ) : ModelCost :=
  let input_cost : ℚ := (input_tokens : ℚ) / 1000000 * input_per_1m
  let output_cost : ℚ := (output_tokens : ℚ) / 1000000 * output_per_1m
  { input_cost := pyRound 4 input_cost
    output_cost := pyRound 4 output_cost
    total := pyRound 4 (input_cost + output_cost) }

/-- The total as claim C1 words it: each cost rounded to 4 decimals, the two
rounded costs summed, and the sum rounded again. -/
def claimed_total_round_before_sum (input_tokens output_tokens : ℕ)
    (input_per_1m output_per_1m : ℚ) : ℚ :=
  pyRound 4 (pyRound 4 ((input_tokens : ℚ) / 1000000 * input_per_1m)
    + pyRound 4 ((output_tokens : ℚ) / 1000000 * output_per_1m))

/-- The total as the source computes it: the two unrounded costs summed and
rounded once. -/
def amended_total_single_round (input_tokens output_tokens : ℕ)
    (input_per_1m output_per_1m : ℚ) : ℚ :=
  pyRound 4 ((input_tokens : ℚ) / 1000000 * input_per_1m
    + (output_tokens : ℚ) / 1000000 * output_per_1m)

/-- C1 counterexample: at 40 input tokens and 40 output tokens with both
prices 1.0 per 1M tokens, the code returns `round(0.00004+0.00004, 4) =
0.0001`, while the claimed round-each-then-sum formula returns `0`. -/
theorem c1_total_rounding_counterexample :
    (calculate_model_cost 40 40 1 1).total ≠
      claimed_total_round_before_sum 40 40 1 1 := by
  norm_num [calculate_model_cost, claimed_total_round_before_sum, pyRound, roundHalfEven]

/-- C1 (amended): for all token counts and prices, the returned `total`
equals the sum of the two unrounded costs rounded once to 4 decimals, while
the reported `input_cost` and `output_cost` fields are each individually
rounded to 4 decimals. -/
theorem c1_total_is_single_round (input_tokens output_tokens : ℕ)
    (input_per_1m output_per_1m : ℚ) :
    (calculate_model_cost input_tokens output_tokens input_per_1m output_per_1m).total
        = amended_total_single_round input_tokens output_tokens input_per_1m output_per_1m
      ∧ (calculate_model_cost input_tokens output_tokens input_per_1m output_per_1m).input_cost
        = pyRound 4 ((input_tokens : ℚ) / 1000000 * input_per_1m)
      ∧ (calculate_model_cost input_tokens output_tokens input_per_1m output_per_1m).output_cost
        = pyRound 4 ((output_tokens : ℚ) / 1000000 * output_per_1m) :=
  ⟨rfl, rfl, rfl⟩

-- ============================================================================
-- Full pricing calculation (src/api/pricing.py lines 223-363)
-- ============================================================================

/-- One entry of the calculation result list (`CalculationResult`). -/
structure CalculationResult where
  provider : String
  provider_name : String
  model : String
  model_name : String
  monthly_cost : ℚ
  input_cost : ℚ
  output_cost : ℚ
  is_selected : Bool
  context_window : ℤ
  notes : String
  vs_gpt4o_savings_percent : Option ℚ
deriving DecidableEq

/-- Cheapest/most-expensive summary (`CheapestModel`). -/
structure CheapestModel where
  provider : String
  model : String
  model_name : String
  monthly_cost : ℚ
deriving DecidableEq

/-- Savings summary (`SavingsInfo`). -/
structure SavingsInfo where
  has_savings : Bool
  selected_model : Option String
  selected_model_name : Option String
  selected_cost : ℚ
  cheapest_model : String
  cheapest_model_name : String
  cheapest_cost : ℚ
  monthly_savings : ℚ
  annual_savings : ℚ
  savings_percentage : ℚ
deriving DecidableEq

/-- Catalog metadata echoed in the response (`PricingMetadata`). -/
structure PricingMetadata where
  last_updated : String
  model_count : ℕ
  provider_count : ℕ
  update_frequency : String
deriving DecidableEq

/-- The `/pricing/calculate` response (`CalculateResponse`); the wall-clock
`calculated_at` timestamp is outside the model. -/
structure CalculateResponse where
  success : Bool
  usage_input : ℕ
  usage_output : ℕ
  results : List CalculationResult
  cheapest : CheapestModel
  most_expensive : CheapestModel
  savings : SavingsInfo
  pricing_last_updated : String
  metadata : PricingMetadata
deriving DecidableEq

/-- `calculate_pricing` (src/api/pricing.py lines 223-363).  The first pass
computes per-model costs and remembers the `openai/gpt-4o` total (last
occurrence, as the Python loop assigns), the second pass annotates savings
vs GPT-4o, results are stable-sorted ascending by monthly cost, and the
cheapest/most-expensive/savings summaries are derived exactly as the source
does, with `unknown` placeholders when the catalog is empty. -/
def calculate_pricing (catalog : PricingCatalog) (input_tokens output_tokens : ℕ)
    (selected_model : Option String) : CalculateResponse :=
  let base : List CalculationResult :=
    catalog.providers.flatMap (fun pp =>
      pp.2.models.map (fun mm =>
        let costs := calculate_model_cost input_tokens output_tokens
          mm.2.input_per_1m mm.2.output_per_1m
        { provider := pp.1
          provider_name := pp.2.name
          model := mm.1
          model_name := mm.2.name
          monthly_cost := costs.total
          input_cost := costs.input_cost
          output_cost := costs.output_cost
          is_selected := selected_model == some (pp.1 ++ "/" ++ mm.1)
          context_window := mm.2.context_window
          notes := mm.2.notes
          vs_gpt4o_savings_percent := none }))
  let gpt4o_cost : Option ℚ :=
    base.foldl (fun acc r =>
      if r.provider == "openai" && r.model == "gpt-4o" then some r.monthly_cost else acc) none
  let results : List CalculationResult :=
    match gpt4o_cost with
    | some g =>
      if 0 < g then
        base.map (fun r =>
          if r.provider == "openai" && r.model == "gpt-4o" then r
          else { r with
                 vs_gpt4o_savings_percent := some (pyRound 1 ((g - r.monthly_cost) / g * 100)) })
      else base
    | none => base
  let sorted := results.mergeSort (fun a b => decide (a.monthly_cost ≤ b.monthly_cost))
  let cheapest := sorted.head?
  let most_expensive := sorted.getLast?
  let cheapest_info : CheapestModel :=
    match cheapest with
    | some c => { provider := c.provider, model := c.model, model_name := c.model_name,
                  monthly_cost := c.monthly_cost }
    | none => { provider := "unknown", model := "unknown", model_name := "Unknown",
                monthly_cost := 0 }
  let most_expensive_info : CheapestModel :=
    match most_expensive with
    | some c => { provider := c.provider, model := c.model, model_name := c.model_name,
                  monthly_cost := c.monthly_cost }
    | none => { provider := "unknown", model := "unknown", model_name := "Unknown",
                monthly_cost := 0 }
  let selected_result : Option CalculationResult :=
    match selected_model with
    | some sel => sorted.find? (fun r => (r.provider ++ "/" ++ r.model) == sel)
    | none => none
  let comparison_result := selected_result.orElse (fun _ => most_expensive)
  let savings_info : SavingsInfo :=
    match comparison_result, cheapest with
    | some comp, some ch =>
      let monthly_savings := comp.monthly_cost - ch.monthly_cost
      let annual_savings := monthly_savings * 12
      let savings_percentage :=
        if 0 < comp.monthly_cost then monthly_savings / comp.monthly_cost * 100 else 0
      { has_savings := decide (1/100 < monthly_savings)
        selected_model := selected_result.map (fun r => r.provider ++ "/" ++ r.model)
        selected_model_name := selected_result.map (fun r => r.model_name)
        selected_cost := (selected_result.map (fun r => r.monthly_cost)).getD 0
        cheapest_model := ch.provider ++ "/" ++ ch.model
        cheapest_model_name := ch.model_name
        cheapest_cost := ch.monthly_cost
        monthly_savings := pyRound 2 monthly_savings
        annual_savings := pyRound 2 annual_savings
        savings_percentage := pyRound 1 savings_percentage }
    | _, _ =>
      { has_savings := false, selected_model := none, selected_model_name := none,
        selected_cost := 0, cheapest_model := "unknown", cheapest_model_name := "Unknown",
        cheapest_cost := 0, monthly_savings := 0, annual_savings := 0,
        savings_percentage := 0 }
  { success := true
    usage_input := input_tokens
    usage_output := output_tokens
    results := sorted
    cheapest := cheapest_info
    most_expensive := most_expensive_info
    savings := savings_info
    pricing_last_updated := catalog.last_updated
    metadata := { last_updated := catalog.last_updated
                  model_count := (catalog.providers.map (fun pp => pp.2.models.length)).sum
                  provider_count := catalog.providers.length
                  update_frequency := catalog.update_frequency } }

/-- C10: with a catalog holding zero models the calculate operation still
succeeds: empty result list, `unknown`/`Unknown`/0 placeholders for the
cheapest and most-expensive summaries, and a savings object with
`has_savings = false`. -/
theorem c10_empty_catalog_succeeds (lu uf : String) (it ot : ℕ) (sel : Option String) :
    (calculate_pricing ⟨[], lu, uf⟩ it ot sel).success = true
      ∧ (calculate_pricing ⟨[], lu, uf⟩ it ot sel).results = []
      ∧ (calculate_pricing ⟨[], lu, uf⟩ it ot sel).cheapest
          = ⟨"unknown", "unknown", "Unknown", 0⟩
      ∧ (calculate_pricing ⟨[], lu, uf⟩ it ot sel).most_expensive
          = ⟨"unknown", "unknown", "Unknown", 0⟩
      ∧ (calculate_pricing ⟨[], lu, uf⟩ it ot sel).savings.has_savings = false
      ∧ (calculate_pricing ⟨[], lu, uf⟩ it ot sel).savings.cheapest_model = "unknown"
      ∧ (calculate_pricing ⟨[], lu, uf⟩ it ot sel).savings.cheapest_cost = 0 := by
  cases sel <;> simp [calculate_pricing]

-- ============================================================================
-- Model comparison (src/api/pricing.py lines 112-116 and 384-466)
-- ============================================================================

/-- Comparison data computed per key before ranks are attached
(`ComparedModel` minus the rank fields). -/
structure ComparedBase where
  provider : String
  provider_name : String
  model : String
  model_name : String
  monthly_cost : ℚ
  input_cost : ℚ
  output_cost : ℚ
  context_window : ℤ
  notes : String
deriving DecidableEq

/-- One ranked entry of the comparison response (`ComparedModel`). -/
structure ComparedModel where
  base : ComparedBase
  cost_rank : ℕ
  cost_vs_cheapest : ℚ
  cost_vs_cheapest_amount : ℚ
deriving DecidableEq

/-- The `/pricing/compare` response (`CompareResponse`). -/
structure CompareResponse where
  success : Bool
  models : List ComparedModel
  cheapest : String
  most_expensive : String
  max_savings : ℚ
  usage_input : ℕ
  usage_output : ℕ
deriving DecidableEq

/-- The error outcomes of the compare endpoint.  `validationFailure` is the
request-shape rejection performed by the `CompareRequest` model
(`models` list bounded to 2..5 entries) before the endpoint body runs;
`internalFailure` stands for the generic exception handler. -/
inductive CompareFailure where
  | validationFailure
  | invalidFormat (key : String)
  | unknownProvider (provider_id : String)
  | unknownModel (key : String)
  | internalFailure
deriving DecidableEq

/-- HTTP status carried by each compare failure: request-validation failures
surface as 422 (FastAPI), the endpoint's own `HTTPException`s as 400, and
the catch-all handler as 500. -/
def compareStatus : CompareFailure → ℕ
  | .validationFailure => 422
  | .invalidFormat _ => 400
  | .unknownProvider _ => 400
  | .unknownModel _ => 400
  | .internalFailure => 500

/-- Python `model_key.split("/", 1)`: the part before the first slash and
the rest. -/
def splitKey (key : String) : String × String :=
  (⟨key.data.takeWhile (fun c => c ≠ '/')⟩,
   ⟨(key.data.dropWhile (fun c => c ≠ '/')).drop 1⟩)

/-- Per-key body of the `compare_models` loop (src/api/pricing.py lines
399-430): missing separator, unknown provider and unknown model each raise
a 400 `HTTPException`. -/
def lookupModelCost (catalog : PricingCatalog) (input_tokens output_tokens : ℕ)
    (key : String) : Except CompareFailure ComparedBase :=
  if !(key.data.contains '/') then .error (.invalidFormat key)
  else
    match catalog.providers.find? (fun e => e.1 == (splitKey key).1) with
    | none => .error (.unknownProvider (splitKey key).1)
    | some pe =>
      match pe.2.models.find? (fun e => e.1 == (splitKey key).2) with
      | none => .error (.unknownModel key)
      | some me =>
        let costs := calculate_model_cost input_tokens output_tokens
          me.2.input_per_1m me.2.output_per_1m
        .ok { provider := (splitKey key).1
              provider_name := pe.2.name
              model := (splitKey key).2
              model_name := me.2.name
              monthly_cost := costs.total
              input_cost := costs.input_cost
              output_cost := costs.output_cost
              context_window := me.2.context_window
              notes := me.2.notes }

/-- The `for model_key in model_keys` loop: first failure aborts the whole
request, successes accumulate in order. -/
def collectModels (catalog : PricingCatalog) (input_tokens output_tokens : ℕ) :
    List String → Except CompareFailure (List ComparedBase)
  | [] => .ok []
  | k :: ks =>
    match lookupModelCost catalog input_tokens output_tokens k with
    | .error e => .error e
    | .ok m =>
      match collectModels catalog input_tokens output_tokens ks with
      | .error e => .error e
      | .ok rest => .ok (m :: rest)

/-- `compare_models` (src/api/pricing.py lines 384-466) minus the request
validation.  An empty sorted list would be an `IndexError` caught by the
generic handler; it is unreachable for validated requests. -/
def compare_models (catalog : PricingCatalog) (model_keys : List String)
    (input_tokens output_tokens : ℕ) : Except CompareFailure CompareResponse :=
  match collectModels catalog input_tokens output_tokens model_keys with
  | .error e => .error e
  | .ok compared =>
    let sorted := compared.mergeSort (fun a b => decide (a.monthly_cost ≤ b.monthly_cost))
    match sorted with
    | [] => .error .internalFailure
    | first :: rest =>
      let cheapest_cost := first.monthly_cost
      let last := (first :: rest).getLastD first
      let result_models := (first :: rest).enum.map (fun im =>
        { base := im.2
          cost_rank := im.1 + 1
          cost_vs_cheapest := pyRound 1 (if 0 < cheapest_cost then
            (im.2.monthly_cost - cheapest_cost) / cheapest_cost * 100 else 0)
          cost_vs_cheapest_amount := pyRound 2 (im.2.monthly_cost - cheapest_cost) })
      .ok { success := true
            models := result_models
            cheapest := first.provider ++ "/" ++ first.model
            most_expensive := last.provider ++ "/" ++ last.model
            max_savings := pyRound 2 (last.monthly_cost - cheapest_cost)
            usage_input := input_tokens
            usage_output := output_tokens }

/-- The `/pricing/compare` endpoint including the `CompareRequest` shape
check (`models` must have 2 to 5 entries), which FastAPI performs before
the endpoint body — and hence before any catalog access. -/
def compare_endpoint (catalog : PricingCatalog) (model_keys : List String)
    (input_tokens output_tokens : ℕ) : Except CompareFailure CompareResponse :=
  if model_keys.length < 2 || 5 < model_keys.length then .error .validationFailure
  else compare_models catalog model_keys input_tokens output_tokens

/-- Every failure the per-key loop body can raise is a 400 client error. -/
theorem lookupModelCost_error_status (catalog : PricingCatalog) (it ot : ℕ)
    (key : String) (e : CompareFailure)
    (h : lookupModelCost catalog it ot key = .error e) :
    compareStatus e = 400 := by
  unfold lookupModelCost at h
  split at h
  · cases h
    rfl
  · split at h
    · cases h
      rfl
    · split at h
      · cases h
        rfl
      · cases h

/-- A key the catalog cannot serve makes the whole collection loop fail with
a 400 failure. -/
theorem collectModels_error_of_bad_key (catalog : PricingCatalog) (it ot : ℕ)
    (keys : List String) (key : String) (hk : key ∈ keys) (e0 : CompareFailure)
    (hbad : lookupModelCost catalog it ot key = .error e0) :
    ∃ e, collectModels catalog it ot keys = .error e ∧ compareStatus e = 400 := by
  induction keys with
  | nil => cases hk
  | cons k ks ih =>
    cases hl : lookupModelCost catalog it ot k with
    | error e1 =>
      exact ⟨e1, by simp [collectModels, hl],
        lookupModelCost_error_status catalog it ot k e1 hl⟩
    | ok m =>
      rcases List.mem_cons.1 hk with rfl | hk2
      · rw [hl] at hbad
        cases hbad
      · obtain ⟨e, he, hs⟩ := ih hk2
        exact ⟨e, by simp [collectModels, hl, he], hs⟩

/-- A key that misses the separator, names an unknown provider, or names an
unknown model makes the per-key loop body fail. -/
theorem lookupModelCost_bad_key (catalog : PricingCatalog) (it ot : ℕ) (key : String)
    (hbad : (key.data.contains '/') = false
      ∨ catalog.providers.find? (fun e => e.1 == (splitKey key).1) = none
      ∨ ∃ pe, catalog.providers.find? (fun e => e.1 == (splitKey key).1) = some pe
          ∧ pe.2.models.find? (fun e => e.1 == (splitKey key).2) = none) :
    ∃ e0, lookupModelCost catalog it ot key = .error e0 := by
  by_cases hc : key.data.contains '/'
  · have hm : '/' ∈ key.data := by simpa using hc
    rcases hbad with hbad | hbad | ⟨pe, hpe, hme⟩
    · rw [hc] at hbad
      cases hbad
    · exact ⟨.unknownProvider (splitKey key).1, by simp [lookupModelCost, hm, hbad]⟩
    · exact ⟨.unknownModel key, by simp [lookupModelCost, hm, hpe, hme]⟩
  · have hm : '/' ∉ key.data := by simpa using hc
    exact ⟨.invalidFormat key, by simp [lookupModelCost, hm]⟩

/-- C9: a compare request with fewer than 2 or more than 5 model keys is
rejected by request validation, identically for every catalog (so before
any catalog lookup); and an accepted request containing a key without the
separator, with an unknown provider, or with an unknown model fails with a
400 client error. -/
theorem c9_compare_validation (catalog catalog2 : PricingCatalog)
    (model_keys : List String) (it ot : ℕ) :
    ((model_keys.length < 2 ∨ 5 < model_keys.length) →
      compare_endpoint catalog model_keys it ot = .error .validationFailure
        ∧ compare_endpoint catalog model_keys it ot
            = compare_endpoint catalog2 model_keys it ot)
    ∧ (2 ≤ model_keys.length → model_keys.length ≤ 5 →
        ∀ key ∈ model_keys,
          ((key.data.contains '/') = false
            ∨ catalog.providers.find? (fun e => e.1 == (splitKey key).1) = none
            ∨ ∃ pe, catalog.providers.find? (fun e => e.1 == (splitKey key).1) = some pe
                ∧ pe.2.models.find? (fun e => e.1 == (splitKey key).2) = none) →
          ∃ e, compare_endpoint catalog model_keys it ot = .error e
            ∧ compareStatus e = 400) := by
  constructor
  · intro hlen
    have hcond : (model_keys.length < 2 || 5 < model_keys.length) = true := by
      rcases hlen with h | h <;> simp [h]
    constructor <;> simp [compare_endpoint, hcond]
  · intro h2 h5 key hk hbad
    obtain ⟨e0, he0⟩ := lookupModelCost_bad_key catalog it ot key hbad
    obtain ⟨e, he, hs⟩ :=
      collectModels_error_of_bad_key catalog it ot model_keys key hk e0 he0
    have hcond : (model_keys.length < 2 || 5 < model_keys.length) = false := by
      simp only [Bool.or_eq_false_iff, decide_eq_false_iff_not, not_lt]
      omega
    exact ⟨e, by simp [compare_endpoint, hcond, compare_models, he], hs⟩

/-- A tiny concrete catalog used to exercise the endpoint theorems. -/
def sampleCatalog : PricingCatalog :=
  { providers :=
      [("openai",
        { name := "OpenAI"
          website := "https://openai.com"
          models :=
            [("gpt-4o",
              { name := "GPT-4o", input_per_1m := 5/2, output_per_1m := 10,
                context_window := 128000, notes := "Flagship" }),
             ("gpt-4o-mini",
              { name := "GPT-4o mini", input_per_1m := 3/20, output_per_1m := 3/5,
                context_window := 128000, notes := "Small" })] })]
    last_updated := "2025-01-01"
    update_frequency := "weekly" }

/-- Witness for C9: a one-key request is rejected by validation for any
catalog, and a two-key request containing the separator-less key `badkey`
fails with a 400 client error. -/
theorem c9_compare_validation_witness :
    compare_endpoint sampleCatalog ["onlyone"] 1000000 500000
        = .error .validationFailure
      ∧ ∃ e, compare_endpoint sampleCatalog ["openai/gpt-4o", "badkey"] 1000000 500000
          = .error e ∧ compareStatus e = 400 :=
  ⟨((c9_compare_validation sampleCatalog ⟨[], "x", "y"⟩ ["onlyone"] 1000000 500000).1
      (Or.inl (by decide))).1,
   (c9_compare_validation sampleCatalog ⟨[], "x", "y"⟩
      ["openai/gpt-4o", "badkey"] 1000000 500000).2 (by decide) (by decide)
      "badkey" (by decide) (Or.inl (by decide))⟩

-- ============================================================================
-- Usage counters (src/api/analytics.py)
-- ============================================================================

/-- One recorded decoder gap (`_stats["error_decoder"]["gaps"][hash]`). -/
structure GapEntry where
  count : ℕ
  preview : String
  first_seen : String
deriving DecidableEq

/-- `_stats["error_decoder"]`; the gap dictionary is modelled as an
association list in insertion order, as Python dicts preserve it. -/
structure ErrorDecoderStats where
  total : ℕ
  matched : ℕ
  unmatched : ℕ
  gaps : List (String × GapEntry)
deriving DecidableEq

/-- `_stats["pricing_calculator"]["token_buckets"]`. -/
structure TokenBuckets where
  under_1k : ℕ
  from_1k_to_10k : ℕ
  from_10k_to_100k : ℕ
  over_100k : ℕ
deriving DecidableEq

/-- `_stats["pricing_calculator"]`. -/
structure PricingCalculatorStats where
  total : ℕ
  token_buckets : TokenBuckets
  models_not_found : List (String × ℕ)
deriving DecidableEq

/-- `_stats["status_page"]`. -/
structure StatusPageStats where
  total : ℕ
  by_provider : List (String × ℕ)
deriving DecidableEq

/-- The whole in-memory `_stats` dictionary. -/
structure Stats where
  started_at : String
  error_decoder : ErrorDecoderStats
  pricing_calculator : PricingCalculatorStats
  status_page : StatusPageStats
deriving DecidableEq

/-- The zero-initialised `_stats` value (src/api/analytics.py lines 23-40). -/
def initStats (now : String) : Stats :=
  { started_at := now
    error_decoder := { total := 0, matched := 0, unmatched := 0, gaps := [] }
    pricing_calculator :=
      { total := 0
        token_buckets :=
          { under_1k := 0, from_1k_to_10k := 0, from_10k_to_100k := 0, over_100k := 0 }
        models_not_found := [] }
    status_page := { total := 0, by_provider := [] } }

/-- The stored preview: first 50 characters, ellipsis-suffixed when the
message is longer (src/api/analytics.py line 125). -/
def gapPreview (msg : String) : String :=
  pyTake msg 50 ++ (if 50 < msg.length then "..." else "")

/-- `track_error_decode` (src/api/analytics.py lines 108-135).  `hash` is
the SHA-256 hex digest supplied by Python's hashlib (external to the
repository); the source truncates it to 12 characters and never stores the
raw message as a key. -/
def track_error_decode (hash : String → String) (now : String)
    (error_message : String) (matched : Bool) (s : Stats) : Stats :=
  let ed := s.error_decoder
  if matched then
    { s with error_decoder := { ed with total := ed.total + 1, matched := ed.matched + 1 } }
  else
    let msg_hash := pyTake (hash error_message) 12
    let preview := gapPreview error_message
    let gaps0 :=
      if (ed.gaps.find? (fun e => e.1 == msg_hash)).isSome then ed.gaps
      else ed.gaps ++ [(msg_hash, { count := 0, preview := preview, first_seen := now })]
    let gaps1 := gaps0.map (fun e =>
      if e.1 == msg_hash then (e.1, { e.2 with count := e.2.count + 1 }) else e)
    { s with error_decoder :=
        { ed with total := ed.total + 1, unmatched := ed.unmatched + 1, gaps := gaps1 } }

/-- `track_pricing_calculation` (src/api/analytics.py lines 138-157). -/
def track_pricing_calculation (input_tokens output_tokens : ℕ) (s : Stats) : Stats :=
  let pc := s.pricing_calculator
  let total := input_tokens + output_tokens
  let tb := pc.token_buckets
  let tb1 :=
    if total < 1000 then { tb with under_1k := tb.under_1k + 1 }
    else if total < 10000 then { tb with from_1k_to_10k := tb.from_1k_to_10k + 1 }
    else if total < 100000 then { tb with from_10k_to_100k := tb.from_10k_to_100k + 1 }
    else { tb with over_100k := tb.over_100k + 1 }
  { s with pricing_calculator := { pc with total := pc.total + 1, token_buckets := tb1 } }

/-- The `POST /pricing/calculate` handler paired with the analytics state:
the body of `calculate_pricing` (src/api/pricing.py lines 223-363) contains
no call into `api.analytics` — the module imports only `load_json_data`,
`subscribe_email` and `load_widget` from `api.shared` — so the handler
returns the stats state unchanged. -/
def calculate_pricing_handler (catalog : PricingCatalog)
    (input_tokens output_tokens : ℕ) (selected_model : Option String)
    (s : Stats) : CalculateResponse × Stats :=
  (calculate_pricing catalog input_tokens output_tokens selected_model, s)

/-- C2 (code bug): replaying the repository's own test
`test_pricing_calculator_tracks_usage` — a `POST /pricing/calculate` with
1,000,000 input and 500,000 output tokens from freshly-initialised stats —
leaves the pricing-calculator counter at 0 and every token bucket at 0,
whereas `track_pricing_calculation` (which no router ever calls) would have
set the counter to 1 and incremented exactly the over-100k bucket. -/
theorem c2_calculate_does_not_track :
    ((calculate_pricing_handler sampleCatalog 1000000 500000 none
        (initStats "t0")).2 = initStats "t0")
      ∧ ((calculate_pricing_handler sampleCatalog 1000000 500000 none
            (initStats "t0")).2.pricing_calculator.total = 0)
      ∧ ((track_pricing_calculation 1000000 500000
            (initStats "t0")).pricing_calculator.total = 1)
      ∧ ((track_pricing_calculation 1000000 500000
            (initStats "t0")).pricing_calculator.token_buckets
          = { under_1k := 0, from_1k_to_10k := 0, from_10k_to_100k := 0, over_100k := 1 }) := by
  refine ⟨rfl, rfl, rfl, ?_⟩
  simp [track_pricing_calculation, initStats]

/-- C3 counterexample: decoding the unmatched 4-character message `boom`
stores that raw message verbatim as the gap preview — the claim that no
operation stores the full raw input fails for messages of at most 50
characters. -/
theorem c3_short_raw_input_is_stored :
    "boom" ∈ ((track_error_decode (fun _ => "0123456789abcdef0123") "t0" "boom" false
        (initStats "t0")).error_decoder.gaps.map (fun e => e.2.preview)) := by
  decide

/-- The slice `s[:n]` has length `min n (len s)`. -/
theorem pyTake_length (s : String) (n : ℕ) : (pyTake s n).length = min n s.length :=
  List.length_take n s.data

/-- C3 (amended): an unmatched decode stores, beyond the previously stored
entries, only the 12-character truncation of the one-way hex digest as key
together with the capped preview (first 50 characters, ellipsis-suffixed
when longer, hence at most 53 characters); a message longer than 53
characters is therefore never stored in full, though a message of at most
50 characters appears verbatim as its own preview. -/
theorem c3_gap_privacy (hash : String → String) (now msg : String) (s : Stats) :
    (∀ e ∈ (track_error_decode hash now msg false s).error_decoder.gaps,
        (e.1, e.2.preview) ∈ s.error_decoder.gaps.map (fun x => (x.1, x.2.preview))
          ∨ (e.1 = pyTake (hash msg) 12 ∧ e.2.preview = gapPreview msg))
      ∧ (gapPreview msg).length ≤ 53
      ∧ (53 < msg.length → gapPreview msg ≠ msg) := by
  refine ⟨?_, ?_, ?_⟩
  · intro e he
    simp only [track_error_decode, Bool.false_eq_true, if_false, List.mem_map] at he
    obtain ⟨x, hx, rfl⟩ := he
    have hkeep : ∀ y : String × GapEntry,
        ((if y.1 == pyTake (hash msg) 12 then
            (y.1, { y.2 with count := y.2.count + 1 }) else y) : String × GapEntry).1 = y.1
        ∧ ((if y.1 == pyTake (hash msg) 12 then
            (y.1, { y.2 with count := y.2.count + 1 }) else y) : String × GapEntry).2.preview
          = y.2.preview := by
      intro y
      by_cases hy : y.1 == pyTake (hash msg) 12 <;> simp [hy]
    by_cases hf : (s.error_decoder.gaps.find? (fun e => e.1 == pyTake (hash msg) 12)).isSome
    · rw [if_pos hf] at hx
      exact Or.inl (List.mem_map.2 ⟨x, hx, by rw [(hkeep x).1, (hkeep x).2]⟩)
    · rw [if_neg hf] at hx
      rcases List.mem_append.1 hx with hx1 | hx2
      · exact Or.inl (List.mem_map.2 ⟨x, hx1, by rw [(hkeep x).1, (hkeep x).2]⟩)
      · have hxval : x = (pyTake (hash msg) 12,
            { count := 0, preview := gapPreview msg, first_seen := now }) := by
          simpa using hx2
        subst hxval
        exact Or.inr ⟨(hkeep _).1, (hkeep _).2⟩
  · by_cases h : 50 < msg.length
    · simp [gapPreview, pyTake_length, h,
        show ("..." : String).length = 3 from rfl]
    · simp [gapPreview, pyTake_length, h,
        show ("" : String).length = 0 from rfl]
  · intro hlen heq
    have hl : (gapPreview msg).length = 53 := by
      simp [gapPreview, pyTake_length, if_pos (show 50 < msg.length by omega),
        show ("..." : String).length = 3 from rfl]
      omega
    rw [heq] at hl
    omega

/-- Witness for C3 (amended) at a concrete 60-character message: its capped
preview differs from the raw message, and every stored entry is either
pre-existing or the truncated-hash/capped-preview pair. -/
theorem c3_gap_privacy_witness :
    (∀ e ∈ (track_error_decode (fun _ => "0123456789abcdef0123") "t0"
          "xxxxxxxxxxxxxxxxxxxxxxxxxxxxxxxxxxxxxxxxxxxxxxxxxxxxxxxxxxxx" false
          (initStats "t0")).error_decoder.gaps,
        (e.1, e.2.preview) ∈ (initStats "t0").error_decoder.gaps.map
            (fun x => (x.1, x.2.preview))
          ∨ (e.1 = pyTake ((fun (_ : String) => "0123456789abcdef0123")
                "xxxxxxxxxxxxxxxxxxxxxxxxxxxxxxxxxxxxxxxxxxxxxxxxxxxxxxxxxxxx") 12
            ∧ e.2.preview
              = gapPreview "xxxxxxxxxxxxxxxxxxxxxxxxxxxxxxxxxxxxxxxxxxxxxxxxxxxxxxxxxxxx"))
      ∧ (gapPreview "xxxxxxxxxxxxxxxxxxxxxxxxxxxxxxxxxxxxxxxxxxxxxxxxxxxxxxxxxxxx").length
          ≤ 53
      ∧ (53 < "xxxxxxxxxxxxxxxxxxxxxxxxxxxxxxxxxxxxxxxxxxxxxxxxxxxxxxxxxxxx".length →
          gapPreview "xxxxxxxxxxxxxxxxxxxxxxxxxxxxxxxxxxxxxxxxxxxxxxxxxxxxxxxxxxxx"
            ≠ "xxxxxxxxxxxxxxxxxxxxxxxxxxxxxxxxxxxxxxxxxxxxxxxxxxxxxxxxxxxx") :=
  c3_gap_privacy (fun _ => "0123456789abcdef0123") "t0"
    "xxxxxxxxxxxxxxxxxxxxxxxxxxxxxxxxxxxxxxxxxxxxxxxxxxxxxxxxxxxx" (initStats "t0")

-- ============================================================================
-- Error decoder (src/api/error_decoder.py)
-- ============================================================================

/-- One catalog pattern (`ErrorPattern`). -/
structure ErrorPattern where
  id : String
  provider : String
  provider_id : String
  error_keywords : List String
  title : String
  explanation : String
  fix : String
  severity : String
  common : Bool
  docs_url : Option String
deriving DecidableEq

/-- The dictionary returned by `match_error_pattern` on a hit. -/
structure MatchInfo where
  pattern : ErrorPattern
  matched_keywords : List String
  confidence : String
  match_score : ℚ
deriving DecidableEq

/-- The decoded result constructed from the best match (`DecodedError`). -/
structure DecodedError where
  pattern : ErrorPattern
  confidence : String
  matched_keywords : List String
deriving DecidableEq

/-- `match_error_pattern` (src/api/error_decoder.py lines 85-118): keywords
are matched as case-insensitive substrings; zero hits discard the pattern;
confidence is `high` when the hit count reaches `min 3 keyword_count`,
`medium` at 2 and `low` otherwise; the score is hits divided by the
pattern's keyword count. -/
def match_error_pattern (error_message : String) (p : ErrorPattern) :
    Option MatchInfo :=
  let matched_keywords :=
    p.error_keywords.filter (fun kw => pyInStr (pyLower kw) (pyLower error_message))
  if matched_keywords.isEmpty then none
  else
    let keyword_count := p.error_keywords.length
    let match_count := matched_keywords.length
    some
      { pattern := p
        matched_keywords := matched_keywords
        confidence :=
          if min 3 keyword_count ≤ match_count then "high"
          else if 2 ≤ match_count then "medium"
          else "low"
        match_score :=
          if 0 < keyword_count then (match_count : ℚ) / (keyword_count : ℚ) else 0 }

/-- The sort order of `matches.sort(key=lambda x: (x["match_score"],
x["confidence"] == "high"), reverse=True)`: descending lexicographic on
(score, confidence-is-high), stable on ties. -/
def rankLE (x y : MatchInfo) : Bool :=
  decide (y.match_score < x.match_score)
    || (decide (x.match_score = y.match_score)
        && (!(y.confidence == "high") || (x.confidence == "high")))

/-- The best-ranked candidate (`matches[0]` after the sort in
`decode_error`, src/api/error_decoder.py lines 121-139). -/
def decode_error_best (error_message : String) (patterns : List ErrorPattern) :
    Option MatchInfo :=
  ((patterns.filterMap (match_error_pattern error_message)).mergeSort rankLE).head?

/-- `decode_error` (src/api/error_decoder.py lines 121-145). -/
def decode_error (error_message : String) (patterns : List ErrorPattern) :
    Option DecodedError :=
  (decode_error_best error_message patterns).map (fun best =>
    { pattern := best.pattern
      confidence := best.confidence
      matched_keywords := best.matched_keywords })

/-- The fixed suggestions returned when no pattern matches
(src/api/error_decoder.py lines 174-180). -/
def genericSuggestions : List String :=
  ["Check your API key and authentication",
   "Verify your request parameters are correct",
   "Check the API documentation for the specific error",
   "Ensure your network connection is stable",
   "Try again after a few moments (may be temporary)"]

/-- The `/error-decoder/decode` response (`DecodeResponse`); `decoded_at`
carries the wall-clock parameter `now`. -/
structure DecodeResponse where
  success : Bool
  error_message : String
  decoded : Option DecodedError
  suggestions : List String
  decoded_at : String
deriving DecidableEq

/-- `decode_error_message` (src/api/error_decoder.py lines 152-188): decode,
track the attempt in the analytics state, and attach the generic
suggestions when nothing matched. -/
def decode_error_message (hash : String → String) (now : String)
    (error_message : String) (patterns : List ErrorPattern) (s : Stats) :
    DecodeResponse × Stats :=
  let decoded := decode_error error_message patterns
  ({ success := true
     error_message := error_message
     decoded := decoded
     suggestions := if decoded.isSome then [] else genericSuggestions
     decoded_at := now },
   track_error_decode hash now error_message decoded.isSome s)

/-- If no pattern matches, `decode_error` returns nothing. -/
theorem decode_error_eq_none (msg : String) (patterns : List ErrorPattern)
    (h : ∀ p ∈ patterns, match_error_pattern msg p = none) :
    decode_error msg patterns = none := by
  have h1 : patterns.filterMap (match_error_pattern msg) = [] :=
    List.filterMap_eq_nil_iff.2 h
  simp [decode_error, decode_error_best, h1]

/-- C6: decoding a message that matches zero patterns returns no decoded
pattern and a non-empty suggestions list, increments the unmatched counter
by exactly 1 and the total by 1 while leaving the matched counter alone,
and preserves the invariant `total = matched + unmatched`. -/
theorem c6_unmatched_decode (hash : String → String) (now msg : String)
    (patterns : List ErrorPattern) (s : Stats)
    (hnm : ∀ p ∈ patterns, match_error_pattern msg p = none) :
    (decode_error_message hash now msg patterns s).1.decoded = none
      ∧ (decode_error_message hash now msg patterns s).1.suggestions ≠ []
      ∧ (decode_error_message hash now msg patterns s).2.error_decoder.unmatched
          = s.error_decoder.unmatched + 1
      ∧ (decode_error_message hash now msg patterns s).2.error_decoder.matched
          = s.error_decoder.matched
      ∧ (decode_error_message hash now msg patterns s).2.error_decoder.total
          = s.error_decoder.total + 1
      ∧ (s.error_decoder.total = s.error_decoder.matched + s.error_decoder.unmatched →
          (decode_error_message hash now msg patterns s).2.error_decoder.total
            = (decode_error_message hash now msg patterns s).2.error_decoder.matched
              + (decode_error_message hash now msg patterns s).2.error_decoder.unmatched) := by
  have hd : decode_error msg patterns = none := decode_error_eq_none msg patterns hnm
  refine ⟨by simp [decode_error_message, hd],
          by simp [decode_error_message, hd, genericSuggestions],
          by simp [decode_error_message, hd, track_error_decode],
          by simp [decode_error_message, hd, track_error_decode],
          by simp [decode_error_message, hd, track_error_decode], ?_⟩
  intro hinv
  simp [decode_error_message, hd, track_error_decode]
  omega

/-- Witness for C6 at the empty pattern catalog and fresh stats. -/
theorem c6_unmatched_decode_witness :
    (decode_error_message (fun _ => "0123456789abcdef0123") "t0" "mystery" []
        (initStats "t0")).1.decoded = none
      ∧ (decode_error_message (fun _ => "0123456789abcdef0123") "t0" "mystery" []
          (initStats "t0")).1.suggestions ≠ []
      ∧ (decode_error_message (fun _ => "0123456789abcdef0123") "t0" "mystery" []
          (initStats "t0")).2.error_decoder.unmatched
        = (initStats "t0").error_decoder.unmatched + 1
      ∧ (decode_error_message (fun _ => "0123456789abcdef0123") "t0" "mystery" []
          (initStats "t0")).2.error_decoder.matched
        = (initStats "t0").error_decoder.matched
      ∧ (decode_error_message (fun _ => "0123456789abcdef0123") "t0" "mystery" []
          (initStats "t0")).2.error_decoder.total
        = (initStats "t0").error_decoder.total + 1
      ∧ ((initStats "t0").error_decoder.total
            = (initStats "t0").error_decoder.matched
              + (initStats "t0").error_decoder.unmatched →
          (decode_error_message (fun _ => "0123456789abcdef0123") "t0" "mystery" []
              (initStats "t0")).2.error_decoder.total
            = (decode_error_message (fun _ => "0123456789abcdef0123") "t0" "mystery" []
                (initStats "t0")).2.error_decoder.matched
              + (decode_error_message (fun _ => "0123456789abcdef0123") "t0" "mystery" []
                  (initStats "t0")).2.error_decoder.unmatched) :=
  c6_unmatched_decode (fun _ => "0123456789abcdef0123") "t0" "mystery" []
    (initStats "t0") (by simp)

/-- The candidate ranking is total. -/
theorem rankLE_total (a b : MatchInfo) : rankLE a b || rankLE b a := by
  unfold rankLE
  rcases lt_trichotomy a.match_score b.match_score with h | h | h
  · simp [h]
  · simp [h]
    tauto
  · simp [h]

/-- The candidate ranking is transitive. -/
theorem rankLE_trans (a b c : MatchInfo) (hab : rankLE a b) (hbc : rankLE b c) :
    rankLE a c := by
  unfold rankLE at hab hbc ⊢
  simp only [Bool.or_eq_true, Bool.and_eq_true, decide_eq_true_eq,
    Bool.not_eq_true'] at hab hbc ⊢
  rcases hab with h1 | ⟨h1, h2⟩ <;> rcases hbc with h3 | ⟨h3, h4⟩
  · exact Or.inl (lt_trans h3 h1)
  · exact Or.inl (h3 ▸ h1)
  · exact Or.inl (by rw [h1]; exact h3)
  · refine Or.inr ⟨h1.trans h3, ?_⟩
    rcases h4 with h4 | h4
    · exact Or.inl h4
    · rcases h2 with h2 | h2
      · rw [h4] at h2
        cases h2
      · exact Or.inr h2

/-- The head of a stable sort under a total transitive comparison is related
to every element of the input list. -/
theorem mergeSort_head_le_of_mem {α : Type} (le : α → α → Bool)
    (htrans : ∀ a b c : α, le a b → le b c → le a c)
    (htotal : ∀ a b : α, le a b || le b a)
    {l : List α} {b : α} (hb : (l.mergeSort le).head? = some b) :
    ∀ x ∈ l, le b x := by
  intro x hx
  have hmem : x ∈ l.mergeSort le := List.mem_mergeSort.2 hx
  have hsorted := List.sorted_mergeSort htrans htotal l
  cases hms : l.mergeSort le with
  | nil =>
    rw [hms] at hb
    cases hb
  | cons hd tl =>
    rw [hms] at hb hmem hsorted
    have hbd : hd = b := by simpa using hb
    subst hbd
    rcases List.mem_cons.1 hmem with rfl | hxtl
    · have := htotal x x
      simpa using this
    · exact (List.pairwise_cons.1 hsorted).1 x hxtl

/-- Reading off what `rankLE x y` says about the two candidates. -/
theorem rankLE_elim (x y : MatchInfo) (h : rankLE x y) :
    y.match_score < x.match_score
      ∨ (y.match_score = x.match_score
          ∧ (y.confidence = "high" → x.confidence = "high")) := by
  unfold rankLE at h
  simp only [Bool.or_eq_true, Bool.and_eq_true, decide_eq_true_eq,
    Bool.not_eq_true', beq_iff_eq, beq_eq_false_iff_ne] at h
  rcases h with h | ⟨h1, h2⟩
  · exact Or.inl h
  · refine Or.inr ⟨h1.symm, ?_⟩
    rcases h2 with h2 | h2
    · intro hy
      exact absurd hy h2
    · intro _
      exact h2

/-- C7: when decode finds a best candidate, that candidate is one of the
keyword-matching candidates, it is maximal in the ranking — strictly higher
match fraction, or equal fraction with `high` confidence never losing to a
non-`high` one — the decoded response is built from it, and patterns with
zero keyword hits never produce a candidate. -/
theorem c7_ranking (msg : String) (patterns : List ErrorPattern) (best : MatchInfo)
    (hbest : decode_error_best msg patterns = some best) :
    best ∈ patterns.filterMap (match_error_pattern msg)
      ∧ (∀ mi ∈ patterns.filterMap (match_error_pattern msg),
          mi.match_score < best.match_score
            ∨ (mi.match_score = best.match_score
                ∧ (mi.confidence = "high" → best.confidence = "high")))
      ∧ decode_error msg patterns
          = some { pattern := best.pattern, confidence := best.confidence,
                   matched_keywords := best.matched_keywords }
      ∧ (∀ p ∈ patterns,
          (∀ kw ∈ p.error_keywords, pyInStr (pyLower kw) (pyLower msg) = false) →
          match_error_pattern msg p = none) := by
  have hle := mergeSort_head_le_of_mem rankLE rankLE_trans rankLE_total hbest
  refine ⟨?_, ?_, ?_, ?_⟩
  · have hb2 := hbest
    unfold decode_error_best at hb2
    cases hms : (patterns.filterMap (match_error_pattern msg)).mergeSort rankLE with
    | nil =>
      rw [hms] at hb2
      cases hb2
    | cons hd tl =>
      rw [hms] at hb2
      have hhd : hd = best := by simpa using hb2
      have hmem : best ∈ hd :: tl := by
        rw [hhd]
        exact List.mem_cons_self best tl
      rw [← hms] at hmem
      exact List.mem_mergeSort.1 hmem
  · intro mi hmi
    exact rankLE_elim best mi (hle mi hmi)
  · simp [decode_error, hbest]
  · intro p hp hkw
    have hfil : p.error_keywords.filter
        (fun kw => pyInStr (pyLower kw) (pyLower msg)) = [] :=
      List.filter_eq_nil_iff.2 (fun kw hkwm => by simp [hkw kw hkwm])
    simp [match_error_pattern, hfil]

/-- A concrete rate-limit pattern for exercising the decoder theorems. -/
def ratePattern : ErrorPattern :=
  { id := "rate-limit"
    provider := "OpenAI"
    provider_id := "openai"
    error_keywords := ["rate limit"]
    title := "Rate limit exceeded"
    explanation := "Too many requests in a short time"
    fix := "Back off and retry later"
    severity := "error"
    common := true
    docs_url := none }

/-- The decoder candidate produced for `rate limit exceeded` against
`ratePattern`. -/
def rateBest : MatchInfo :=
  { pattern := ratePattern
    matched_keywords := ["rate limit"]
    confidence := "high"
    match_score := 1 }

/-- Matching the concrete message against the concrete pattern. -/
theorem match_rate_concrete :
    match_error_pattern "rate limit exceeded" ratePattern = some rateBest := by
  have hin : pyInStr (pyLower "rate limit")
      (pyLower "rate limit exceeded") = true := by decide
  simp [match_error_pattern, ratePattern, rateBest, hin]

/-- The best candidate for the concrete message. -/
theorem decode_best_rate_concrete :
    decode_error_best "rate limit exceeded" [ratePattern] = some rateBest := by
  unfold decode_error_best
  rw [show List.filterMap (match_error_pattern "rate limit exceeded") [ratePattern]
      = [rateBest] from by simp [match_rate_concrete]]
  simp

/-- Witness for C7 at the concrete message `rate limit exceeded` against a
one-pattern catalog. -/
theorem c7_ranking_witness :
    rateBest ∈ List.filterMap (match_error_pattern "rate limit exceeded") [ratePattern]
      ∧ (∀ mi ∈ List.filterMap (match_error_pattern "rate limit exceeded") [ratePattern],
          mi.match_score < rateBest.match_score
            ∨ (mi.match_score = rateBest.match_score
                ∧ (mi.confidence = "high" → rateBest.confidence = "high")))
      ∧ decode_error "rate limit exceeded" [ratePattern]
          = some { pattern := rateBest.pattern, confidence := rateBest.confidence,
                   matched_keywords := rateBest.matched_keywords }
      ∧ (∀ p ∈ [ratePattern],
          (∀ kw ∈ p.error_keywords,
            pyInStr (pyLower kw) (pyLower "rate limit exceeded") = false) →
          match_error_pattern "rate limit exceeded" p = none) :=
  c7_ranking "rate limit exceeded" [ratePattern] rateBest decode_best_rate_concrete

/-- Unfolding the gap update of an unmatched `track_error_decode` call. -/
theorem track_unmatched_gaps (hash : String → String) (now msg : String) (s : Stats) :
    (track_error_decode hash now msg false s).error_decoder.gaps
      = (if (s.error_decoder.gaps.find?
            (fun e => e.1 == pyTake (hash msg) 12)).isSome
         then s.error_decoder.gaps
         else s.error_decoder.gaps
           ++ [(pyTake (hash msg) 12,
                { count := 0, preview := gapPreview msg, first_seen := now })]).map
        (fun e => if e.1 == pyTake (hash msg) 12
          then (e.1, { e.2 with count := e.2.count + 1 }) else e) := rfl

/-- The count bump leaves entries under other keys untouched. -/
theorem bump_map_of_absent (key : String) (gaps : List (String × GapEntry))
    (h : gaps.find? (fun e => e.1 == key) = none) :
    gaps.map (fun e => if e.1 == key
        then (e.1, { e.2 with count := e.2.count + 1 }) else e) = gaps := by
  have h' := List.find?_eq_none.1 h
  exact (List.map_congr_left (fun e he => if_neg (h' e he))).trans (List.map_id _)

/-- C8: decoding the same unmatched message twice, starting from a state
with no entry under its hash key, leaves a single gap entry under the
truncated hash key with count 2 and the first call's timestamp — the gap
list grows by exactly one entry and holds exactly one entry for that key. -/
theorem c8_gap_idempotent (hash : String → String) (n1 n2 msg : String)
    (patterns : List ErrorPattern) (s : Stats)
    (hnm : ∀ p ∈ patterns, match_error_pattern msg p = none)
    (habs : s.error_decoder.gaps.find?
        (fun e => e.1 == pyTake (hash msg) 12) = none) :
    ((decode_error_message hash n2 msg patterns
          (decode_error_message hash n1 msg patterns s).2).2.error_decoder.gaps
        = s.error_decoder.gaps
          ++ [(pyTake (hash msg) 12,
               { count := 2, preview := gapPreview msg, first_seen := n1 })])
      ∧ ((decode_error_message hash n2 msg patterns
            (decode_error_message hash n1 msg patterns s).2).2.error_decoder.gaps.length
          = s.error_decoder.gaps.length + 1)
      ∧ ((decode_error_message hash n2 msg patterns
            (decode_error_message hash n1 msg patterns s).2).2.error_decoder.gaps.countP
              (fun e => e.1 == pyTake (hash msg) 12)
          = 1) := by
  have hd : decode_error msg patterns = none := decode_error_eq_none msg patterns hnm
  simp only [decode_error_message, hd, Option.isSome_none]
  have hs1 : (track_error_decode hash n1 msg false s).error_decoder.gaps
      = s.error_decoder.gaps
        ++ [(pyTake (hash msg) 12,
             { count := 1, preview := gapPreview msg, first_seen := n1 })] := by
    rw [track_unmatched_gaps, if_neg (by rw [habs]; simp), List.map_append,
      bump_map_of_absent _ _ habs]
    simp
  have hgaps2 : (track_error_decode hash n2 msg false
      (track_error_decode hash n1 msg false s)).error_decoder.gaps
      = s.error_decoder.gaps
        ++ [(pyTake (hash msg) 12,
             { count := 2, preview := gapPreview msg, first_seen := n1 })] := by
    rw [track_unmatched_gaps, hs1]
    have hfind : ((s.error_decoder.gaps
        ++ [(pyTake (hash msg) 12,
             ({ count := 1, preview := gapPreview msg, first_seen := n1 } : GapEntry))]).find?
          (fun e => e.1 == pyTake (hash msg) 12)).isSome = true := by
      rw [List.find?_append, habs]
      simp
    rw [if_pos hfind, List.map_append, bump_map_of_absent _ _ habs]
    simp
  refine ⟨hgaps2, ?_, ?_⟩
  · rw [hgaps2]
    simp
  · rw [hgaps2, List.countP_append]
    have h0 : s.error_decoder.gaps.countP
        (fun e => e.1 == pyTake (hash msg) 12) = 0 :=
      List.countP_eq_zero.2 (List.find?_eq_none.1 habs)
    rw [h0]
    simp

/-- Witness for C8: two decodes of the 4-character message `boom` from
fresh stats leave one gap entry with count 2. -/
theorem c8_gap_idempotent_witness :
    ((decode_error_message (fun _ => "0123456789abcdef0123") "t2" "boom" []
          (decode_error_message (fun _ => "0123456789abcdef0123") "t1" "boom" []
            (initStats "t0")).2).2.error_decoder.gaps
        = (initStats "t0").error_decoder.gaps
          ++ [(pyTake ((fun (_ : String) => "0123456789abcdef0123") "boom") 12,
               { count := 2, preview := gapPreview "boom", first_seen := "t1" })])
      ∧ ((decode_error_message (fun _ => "0123456789abcdef0123") "t2" "boom" []
            (decode_error_message (fun _ => "0123456789abcdef0123") "t1" "boom" []
              (initStats "t0")).2).2.error_decoder.gaps.length
          = (initStats "t0").error_decoder.gaps.length + 1)
      ∧ ((decode_error_message (fun _ => "0123456789abcdef0123") "t2" "boom" []
            (decode_error_message (fun _ => "0123456789abcdef0123") "t1" "boom" []
              (initStats "t0")).2).2.error_decoder.gaps.countP
            (fun e => e.1 == pyTake ((fun (_ : String) => "0123456789abcdef0123") "boom") 12)
          = 1) :=
  c8_gap_idempotent (fun _ => "0123456789abcdef0123") "t1" "t2" "boom" []
    (initStats "t0") (by simp) (by simp [initStats])

-- ============================================================================
-- Status aggregator (src/api/status.py)
-- ============================================================================

/-- The three classifications `check_provider_status` can produce
(src/api/status.py lines 76-181): every exit path returns `operational`,
`degraded` or `down`. -/
inductive PStatus where
  | operational
  | degraded
  | down
deriving DecidableEq

/-- One probed provider (`ProviderStatus`); `last_checked` is the probe's
wall-clock string. -/
structure ProviderStatus where
  id : String
  name : String
  status : PStatus
  latency_ms : Option ℤ
  last_checked : String
  status_page_url : String
  error : Option String
deriving DecidableEq

/-- `status_order = {"down": 0, "degraded": 1, "operational": 2}`. -/
def statusOrder : PStatus → ℕ
  | .down => 0
  | .degraded => 1
  | .operational => 2

/-- The sort key `(status_order.get(status), name)`, ascending and stable. -/
def statusSortLE (a b : ProviderStatus) : Bool :=
  decide (statusOrder a.status < statusOrder b.status)
    || (decide (statusOrder a.status = statusOrder b.status)
        && decide (a.name ≤ b.name))

/-- The aggregated `/status/check` payload (`StatusResponse`); `last_updated`
is the capture time as rational wall-clock seconds. -/
structure StatusResponse where
  success : Bool
  overall_status : String
  providers : List ProviderStatus
  operational_count : ℕ
  degraded_count : ℕ
  down_count : ℕ
  last_updated : ℚ
  cache_ttl_seconds : ℕ
deriving DecidableEq

/-- The fresh-aggregation body of `check_all_providers` (src/api/status.py
lines 197-247): sort the probe results by severity then name, count each
class, and derive the overall status — `major_outage` only when some
provider is down and the down count reaches half the provider count. -/
def aggregate_providers (now : ℚ) (probed : List ProviderStatus) : StatusResponse :=
  let sorted := probed.mergeSort statusSortLE
  let operational_count := sorted.countP (fun p => p.status == PStatus.operational)
  let degraded_count := sorted.countP (fun p => p.status == PStatus.degraded)
  let down_count := sorted.countP (fun p => p.status == PStatus.down)
  { success := true
    overall_status :=
      if 0 < down_count then
        if (down_count : ℚ) ≥ (sorted.length : ℚ) / 2 then "major_outage"
        else "issues_detected"
      else if 0 < degraded_count then "issues_detected"
      else "all_operational"
    providers := sorted
    operational_count := operational_count
    degraded_count := degraded_count
    down_count := down_count
    last_updated := now
    cache_ttl_seconds := 60 }

/-- The single-slot status cache (`_status_cache`, `_status_cache_time`). -/
structure StatusCache where
  cache : Option StatusResponse
  time : ℚ
deriving DecidableEq

/-- `check_all_providers` (src/api/status.py lines 184-247): a cached
payload younger than 60 seconds is returned verbatim with no state change;
otherwise the fresh aggregation of `probed` is returned and cached. -/
def check_all_providers (now : ℚ) (probed : List ProviderStatus)
    (st : StatusCache) : StatusResponse × StatusCache :=
  match st.cache with
  | some payload =>
    if now - st.time < 60 then (payload, st)
    else (aggregate_providers now probed,
          { cache := some (aggregate_providers now probed), time := now })
  | none =>
    (aggregate_providers now probed,
     { cache := some (aggregate_providers now probed), time := now })

/-- The three classifications partition any probe-result list. -/
theorem status_counts_partition (l : List ProviderStatus) :
    l.countP (fun p => p.status == PStatus.operational)
      + l.countP (fun p => p.status == PStatus.degraded)
      + l.countP (fun p => p.status == PStatus.down) = l.length := by
  induction l with
  | nil => rfl
  | cons a t ih =>
    cases ha : a.status <;> simp [List.countP_cons, ha] <;> omega

/-- Characterisation of the overall-status if-chain. -/
theorem overall_status_eq_major_iff (dc dg n : ℕ) :
    ((if 0 < dc then
        if (dc : ℚ) ≥ (n : ℚ) / 2 then "major_outage" else "issues_detected"
      else if 0 < dg then "issues_detected" else "all_operational")
        = "major_outage")
      ↔ (0 < dc ∧ (dc : ℚ) ≥ (n : ℚ) / 2) := by
  by_cases h1 : 0 < dc
  · by_cases h2 : (dc : ℚ) ≥ (n : ℚ) / 2
    · simp [h1, h2]
    · simp [h1, h2]
  · by_cases h3 : 0 < dg <;> simp [h1, h3]

/-- C4 counterexample: aggregating an empty provider registry yields
`all_operational` even though `down_count = 0` does reach half of the zero
providers, so the claimed equivalence fails there. -/
theorem c4_major_outage_counterexample :
    ¬ ((aggregate_providers 0 []).overall_status = "major_outage"
        ↔ ((aggregate_providers 0 []).down_count : ℚ)
            ≥ (([] : List ProviderStatus).length : ℚ) / 2) := by
  simp [aggregate_providers]

/-- C4 (amended): the three status counts always sum to the number of
probed providers, and the overall status is `major_outage` exactly when at
least one provider is down and the down count reaches half the provider
count — for a non-empty registry this is the claimed `down_count ≥ n/2`
condition. -/
theorem c4_status_counts_overall (now : ℚ) (probed : List ProviderStatus) :
    (aggregate_providers now probed).operational_count
        + (aggregate_providers now probed).degraded_count
        + (aggregate_providers now probed).down_count = probed.length
      ∧ ((aggregate_providers now probed).overall_status = "major_outage"
          ↔ 0 < (aggregate_providers now probed).down_count
            ∧ ((aggregate_providers now probed).down_count : ℚ)
                ≥ (probed.length : ℚ) / 2) := by
  have hperm := List.mergeSort_perm probed statusSortLE
  constructor
  · simp only [aggregate_providers]
    rw [hperm.countP_eq, hperm.countP_eq, hperm.countP_eq]
    exact status_counts_partition probed
  · simp only [aggregate_providers]
    rw [show (probed.mergeSort statusSortLE).length = probed.length from
      hperm.length_eq]
    exact overall_status_eq_major_iff _ _ _

/-- C5: after a fresh aggregation at time `t1`, a second call strictly
within 60 seconds returns the identical payload (including `last_updated`)
and leaves the cache slot untouched, while a call 60 or more seconds later
returns a freshly aggregated payload stamped with the new time, which
differs from the cached stamp. -/
theorem c5_status_cache_ttl (s0 : StatusCache) (t1 t2 : ℚ)
    (p1 p2 : List ProviderStatus) (h0 : s0.cache = none) :
    ((t2 - t1 < 60) →
      check_all_providers t2 p2 (check_all_providers t1 p1 s0).2
        = ((check_all_providers t1 p1 s0).1, (check_all_providers t1 p1 s0).2))
    ∧ (60 ≤ t2 - t1 →
        (check_all_providers t2 p2 (check_all_providers t1 p1 s0).2).1
            = aggregate_providers t2 p2
          ∧ (check_all_providers t2 p2 (check_all_providers t1 p1 s0).2).1.last_updated = t2
          ∧ (check_all_providers t1 p1 s0).1.last_updated = t1
          ∧ (check_all_providers t2 p2 (check_all_providers t1 p1 s0).2).1.last_updated
              ≠ (check_all_providers t1 p1 s0).1.last_updated) := by
  have h1 : check_all_providers t1 p1 s0
      = (aggregate_providers t1 p1,
         { cache := some (aggregate_providers t1 p1), time := t1 }) := by
    obtain ⟨c, tm⟩ := s0
    cases h0
    rfl
  constructor
  · intro hlt
    rw [h1]
    simp [check_all_providers, hlt]
  · intro hge
    have hnlt : ¬ (t2 - t1 < 60) := by linarith
    rw [h1]
    refine ⟨?_, ?_, ?_, ?_⟩
    · simp [check_all_providers, hnlt]
    · simp [check_all_providers, hnlt, aggregate_providers]
    · simp [aggregate_providers]
    · simp [check_all_providers, hnlt, aggregate_providers]
      intro heq
      rw [heq] at hge
      linarith

/-- Witness for C5 with an empty cache at time 0 and a second call at
time 100. -/
theorem c5_status_cache_ttl_witness :
    (((100 : ℚ) - 0 < 60) →
      check_all_providers 100 [] (check_all_providers 0 [] ⟨none, 0⟩).2
        = ((check_all_providers 0 [] ⟨none, 0⟩).1,
           (check_all_providers 0 [] ⟨none, 0⟩).2))
    ∧ ((60 : ℚ) ≤ 100 - 0 →
        (check_all_providers 100 [] (check_all_providers 0 [] ⟨none, 0⟩).2).1
            = aggregate_providers 100 []
          ∧ (check_all_providers 100 [] (check_all_providers 0 [] ⟨none, 0⟩).2).1.last_updated
            = 100
          ∧ (check_all_providers 0 [] ⟨none, (0 : ℚ)⟩).1.last_updated = 0
          ∧ (check_all_providers 100 [] (check_all_providers 0 [] ⟨none, 0⟩).2).1.last_updated
              ≠ (check_all_providers 0 [] ⟨none, 0⟩).1.last_updated) :=
  c5_status_cache_ttl ⟨none, 0⟩ 0 100 [] [] rfl
